import Mathlib

/-!
Verification of the bu-build-toolkit configuration logic.

Two pieces of logic are embedded from the source:

1. the theme.json Document Compiler (src/bin/compile-theme-json.mjs):
   JavaScript objects are modelled as insertion-ordered association lists,
   the JS object-spread operator as the function spread below, and the
   filesystem/process interaction of one compiler run as an explicit
   state record together with an outcome type.

2. the Configuration Composer (createWebpackConfig in the current ESM
   webpack config, and createConfig in the current index entry point).
   The webpack-merge library call mergeWithRules is embedded with the
   exact rule tables the source instantiates it with (replace / prepend /
   match-then-merge), following the library's documented semantics.
-/

namespace BuToolkit

/-- JSON-compatible values. Objects are insertion-ordered association
lists, matching JavaScript object key ordering. -/
inductive JValue where
  | null : JValue
  | bool (b : Bool) : JValue
  | num (n : Int) : JValue
  | str (s : String) : JValue
  | arr (xs : List JValue) : JValue
  | obj (fields : List (String × JValue)) : JValue

/-- A JavaScript object at top level: ordered list of key-value pairs. -/
abbrev JObj := List (String × JValue)

/-- Property access o[k]: the value at the first occurrence of key k. -/
def lookupJ (o : JObj) (k : String) : Option JValue :=
  match o with
  | [] => none
  | (k2, v) :: rest => if k2 = k then some v else lookupJ rest k

/-- The JS object spread of two objects: keys of a keep their
position (values overridden by b on collision), then keys of b not in a
follow in b's order. This is the meaning of the object literal that
spreads a and then b. -/
def spread (a b : JObj) : JObj :=
  (a.map (fun p => (p.1, (lookupJ b p.1).getD p.2)))
    ++ b.filter (fun p => (lookupJ a p.1).isNone)

theorem lookupJ_append (xs ys : JObj) (k : String) :
    lookupJ (xs ++ ys) k =
      match lookupJ xs k with
      | some v => some v
      | none => lookupJ ys k := by
  induction xs with
  | nil => rfl
  | cons p rest ih =>
    by_cases h : p.1 = k
    · simp [lookupJ, h]
    · simp [lookupJ, h, ih]

theorem lookupJ_map_override (a b : JObj) (k : String) :
    lookupJ (a.map (fun p => (p.1, (lookupJ b p.1).getD p.2))) k =
      match lookupJ a k with
      | some v => some ((lookupJ b k).getD v)
      | none => none := by
  induction a with
  | nil => rfl
  | cons p rest ih =>
    by_cases h : p.1 = k
    · simp [lookupJ, h]
    · simp [lookupJ, h, ih]

theorem lookupJ_filter_out (a b : JObj) (k : String) (h : lookupJ a k = none) :
    lookupJ (b.filter (fun p => (lookupJ a p.1).isNone)) k = lookupJ b k := by
  induction b with
  | nil => rfl
  | cons p rest ih =>
    obtain ⟨k1, v1⟩ := p
    by_cases hk : k1 = k
    · subst hk
      have hcond : (lookupJ a k1).isNone = true := by rw [h]; rfl
      simp [List.filter_cons, hcond, lookupJ]
    · by_cases hcond : (lookupJ a k1).isNone = true
      · simp [List.filter_cons, hcond, lookupJ, hk, ih]
      · simp [List.filter_cons, hcond, lookupJ, hk, ih]

/-- Spread lookup: the later (right) object wins on every key. -/
theorem lookupJ_spread (a b : JObj) (k : String) :
    lookupJ (spread a b) k =
      match lookupJ b k with
      | some v => some v
      | none => lookupJ a k := by
  unfold spread
  rw [lookupJ_append, lookupJ_map_override]
  cases ha : lookupJ a k with
  | some v =>
    cases hb : lookupJ b k <;> simp [Option.getD]
  | none =>
    rw [lookupJ_filter_out a b k ha]
    cases hb : lookupJ b k <;> simp

theorem lookupJ_spread_none (a b : JObj) (k : String)
    (ha : lookupJ a k = none) (hb : lookupJ b k = none) :
    lookupJ (spread a b) k = none := by
  rw [lookupJ_spread, hb, ha]

theorem lookupJ_spread_right (a b : JObj) (k : String) (v : JValue)
    (hb : lookupJ b k = some v) :
    lookupJ (spread a b) k = some v := by
  rw [lookupJ_spread, hb]

/-! ## Document Compiler (src/bin/compile-theme-json.mjs) -/

/-- State of one candidate fragment file (one base path plus one
extension): the file can be absent, present but failing to import
(a thrown load/parse error), or present with a default export that,
after the source's fallback of default-or-empty-object, is the object v. -/
inductive FileState where
  | absent : FileState
  | broken : FileState
  | good (v : JObj) : FileState

/-- Filesystem state a compiler run observes: whether src/theme-json
exists, and the state of each role's candidate file under each of the two
candidate extensions (.mjs tried first, .js second). -/
structure ThemeFS where
  sourceDirExists : Bool
  configMjs : FileState
  configJs : FileState
  settingsMjs : FileState
  settingsJs : FileState
  stylesMjs : FileState
  stylesJs : FileState

/-- Outcome of one run of the compiler process:
skipped = informational message, exit status 0, no file written;
aborted = diagnostic, process.exit(1), no file written;
written t = theme.json overwritten with the serialization of t, exit 0. -/
inductive CompileOutcome where
  | skipped : CompileOutcome
  | aborted : CompileOutcome
  | written (theme : JObj) : CompileOutcome

/-- The tryImport helper: extensions are tried in order .mjs then .js;
the first extension whose file exists is imported — on import success the
default export is returned, on failure null is returned (the error is
only logged; the .js fallback is not tried after a failed .mjs import). -/
def tryImport (mjs js : FileState) : Option JObj :=
  match mjs with
  | .good v => some v
  | .broken => none
  | .absent =>
    match js with
    | .good v => some v
    | .broken => none
    | .absent => none

/-- The tail of compileThemeJson once the three imports have resolved:
if all three are null the run aborts with exit 1 before any write;
otherwise the merged object, the spread of config then settings then
styles with null replaced by the empty object, is written. -/
def compileFrom : Option JObj → Option JObj → Option JObj → CompileOutcome
  | none, none, none => .aborted
  | c, s, st => .written (spread (spread (c.getD []) (s.getD [])) (st.getD []))

/-- The compileThemeJson entry point of the compiler, as a function of
the observed filesystem state. -/
def compileThemeJson (fs : ThemeFS) : CompileOutcome :=
  if fs.sourceDirExists then
    compileFrom (tryImport fs.configMjs fs.configJs)
      (tryImport fs.settingsMjs fs.settingsJs)
      (tryImport fs.stylesMjs fs.stylesJs)
  else
    .skipped

/-- The three fragment roles, in merge order. -/
inductive Role where
  | config : Role
  | settings : Role
  | styles : Role
deriving DecidableEq

/-- The pair of candidate files of a role. -/
def roleFiles (r : Role) (fs : ThemeFS) : FileState × FileState :=
  match r with
  | .config => (fs.configMjs, fs.configJs)
  | .settings => (fs.settingsMjs, fs.settingsJs)
  | .styles => (fs.stylesMjs, fs.stylesJs)

/-- Resolution of one role, exactly as the source resolves it. -/
def tryImportRole (r : Role) (fs : ThemeFS) : Option JObj :=
  tryImport (roleFiles r fs).1 (roleFiles r fs).2

/-- Replace both candidate files of a role by absent files. -/
def clearRole (r : Role) (fs : ThemeFS) : ThemeFS :=
  match r with
  | .config => { fs with configMjs := .absent, configJs := .absent }
  | .settings => { fs with settingsMjs := .absent, settingsJs := .absent }
  | .styles => { fs with stylesMjs := .absent, stylesJs := .absent }

/-- A role has a present fragment file whose import fails: either the
.mjs file is present and broken, or it is absent and the .js file is
present and broken. -/
def roleFails (p : FileState × FileState) : Prop :=
  p.1 = .broken ∨ (p.1 = .absent ∧ p.2 = .broken)

theorem tryImport_of_fails (m j : FileState) (h : roleFails (m, j)) :
    tryImport m j = none := by
  rcases h with h | ⟨h1, h2⟩
  · subst h; rfl
  · subst h1; subst h2; rfl

theorem compileFrom_eq_aborted (c s st : Option JObj) :
    compileFrom c s st = .aborted ↔ c = none ∧ s = none ∧ st = none := by
  cases c <;> cases s <;> cases st <;> simp [compileFrom]

theorem compileThemeJson_eq (fs : ThemeFS) (hdir : fs.sourceDirExists = true) :
    compileThemeJson fs =
      compileFrom (tryImportRole .config fs) (tryImportRole .settings fs)
        (tryImportRole .styles fs) := by
  simp [compileThemeJson, tryImportRole, roleFiles, hdir]

/-- C3: when the src/theme-json source directory does not exist, the
compiler logs an informational message and returns normally — exit
status 0, no output file created or modified. -/
theorem compile_missing_dir_skips (fs : ThemeFS) (h : fs.sourceDirExists = false) :
    compileThemeJson fs = .skipped := by
  simp [compileThemeJson, h]

theorem compile_missing_dir_skips_witness :
    compileThemeJson ⟨false, .absent, .absent, .absent, .absent, .absent, .absent⟩ =
      .skipped :=
  compile_missing_dir_skips ⟨false, .absent, .absent, .absent, .absent, .absent, .absent⟩ rfl

/-- C2: when the source directory exists but none of the three roles has
a fragment file under either candidate extension, the compiler prints a
diagnostic and calls process.exit(1) before any write — failure status,
no output file. -/
theorem compile_all_absent_aborts (fs : ThemeFS) (hdir : fs.sourceDirExists = true)
    (h1 : fs.configMjs = .absent) (h2 : fs.configJs = .absent)
    (h3 : fs.settingsMjs = .absent) (h4 : fs.settingsJs = .absent)
    (h5 : fs.stylesMjs = .absent) (h6 : fs.stylesJs = .absent) :
    compileThemeJson fs = .aborted := by
  rw [compileThemeJson_eq fs hdir]
  simp [tryImportRole, roleFiles, tryImport, compileFrom, h1, h2, h3, h4, h5, h6]

theorem compile_all_absent_aborts_witness :
    compileThemeJson ⟨true, .absent, .absent, .absent, .absent, .absent, .absent⟩ =
      .aborted :=
  compile_all_absent_aborts ⟨true, .absent, .absent, .absent, .absent, .absent, .absent⟩
    rfl rfl rfl rfl rfl rfl rfl

/-- Filesystem state refuting C1: the config fragment file is present
but its import fails, while the settings fragment loads successfully. -/
def fsParseFail : ThemeFS :=
  ⟨true, .broken, .absent, .good [("version", .num 1)], .absent, .absent, .absent⟩

/-- C1 counterexample: a run with a present fragment that fails to load
does NOT exit with failure status — the failed fragment is treated as
null, the remaining fragments are merged, and theme.json IS written
(the run completes successfully). -/
theorem compile_parse_fail_still_writes :
    roleFails (roleFiles .config fsParseFail) ∧
      compileThemeJson fsParseFail = .written [("version", JValue.num 1)] ∧
      compileThemeJson fsParseFail ≠ .aborted := by
  refine ⟨Or.inl rfl, rfl, ?_⟩
  intro h
  have h2 : CompileOutcome.written [("version", JValue.num 1)] = .aborted := h
  exact CompileOutcome.noConfusion h2

/-- C1 (amended): a present fragment whose import fails is treated
exactly like an absent fragment (tryImport logs the error and resolves
the role to null). The run aborts with failure status and no output
precisely when every role resolves to null; otherwise the merge of the
successfully loaded fragments is written. -/
theorem compile_parse_fail_as_absent (fs : ThemeFS) (r : Role)
    (hdir : fs.sourceDirExists = true) (hfail : roleFails (roleFiles r fs)) :
    compileThemeJson fs = compileThemeJson (clearRole r fs) ∧
      (compileThemeJson fs = .aborted ↔ ∀ r2 : Role, tryImportRole r2 fs = none) := by
  have hnone : tryImportRole r fs = none := by
    cases r <;> exact tryImport_of_fails _ _ hfail
  have hdir2 : (clearRole r fs).sourceDirExists = true := by
    cases r <;> exact hdir
  rw [compileThemeJson_eq fs hdir, compileThemeJson_eq _ hdir2]
  constructor
  · cases r <;> (rw [hnone]; rfl)
  · rw [compileFrom_eq_aborted]
    constructor
    · rintro ⟨hc, hs, hst⟩ r2
      cases r2
      · exact hc
      · exact hs
      · exact hst
    · intro hall
      exact ⟨hall .config, hall .settings, hall .styles⟩

theorem compile_parse_fail_as_absent_witness :
    compileThemeJson fsParseFail = compileThemeJson (clearRole .config fsParseFail) ∧
      (compileThemeJson fsParseFail = .aborted ↔
        ∀ r2 : Role, tryImportRole r2 fsParseFail = none) :=
  compile_parse_fail_as_absent fsParseFail .config rfl (Or.inl rfl)

/-- C4: with all three fragments loaded, the written document is the
shallow overlay of config, then settings, then styles, and on every
top-level key the last fragment defining it wins (styles over settings
over config). -/
theorem compile_merge_precedence (fs : ThemeFS) (c s st : JObj)
    (hdir : fs.sourceDirExists = true)
    (hc : tryImportRole .config fs = some c)
    (hs : tryImportRole .settings fs = some s)
    (hst : tryImportRole .styles fs = some st) :
    compileThemeJson fs = .written (spread (spread c s) st) ∧
      ∀ k, lookupJ (spread (spread c s) st) k =
        match lookupJ st k with
        | some v => some v
        | none =>
          match lookupJ s k with
          | some v => some v
          | none => lookupJ c k := by
  constructor
  · rw [compileThemeJson_eq fs hdir, hc, hs, hst]
    rfl
  · intro k
    rw [lookupJ_spread, lookupJ_spread]

/-- Concrete run for the precedence scenario of the spec: base defines
version 1, settings defines version 2. -/
def fsPrecedence : ThemeFS :=
  ⟨true, .good [("version", .num 1)], .absent,
    .good [("version", .num 2)], .absent, .good [], .absent⟩

theorem compile_merge_precedence_witness :
    compileThemeJson fsPrecedence =
      .written (spread (spread [("version", JValue.num 1)] [("version", JValue.num 2)]) []) :=
  (compile_merge_precedence fsPrecedence [("version", JValue.num 1)]
    [("version", JValue.num 2)] [] rfl rfl rfl rfl).1

/-- Replace the two candidate files of the style role. -/
def setStyles (fs : ThemeFS) (m j : FileState) : ThemeFS :=
  { fs with stylesMjs := m, stylesJs := j }

/-- C5: with the other fragments unchanged and at least one of them
loading, a run whose style role is entirely absent and a run whose style
role is the empty object produce identical outcomes (same merged
document written). -/
theorem compile_absent_style_transparent (fs : ThemeFS)
    (hdir : fs.sourceDirExists = true)
    (h : tryImportRole .config fs ≠ none ∨ tryImportRole .settings fs ≠ none) :
    compileThemeJson (setStyles fs .absent .absent) =
      compileThemeJson (setStyles fs (.good []) .absent) := by
  have h1 : (setStyles fs .absent .absent).sourceDirExists = true := hdir
  have h2 : (setStyles fs (.good []) .absent).sourceDirExists = true := hdir
  rw [compileThemeJson_eq _ h1, compileThemeJson_eq _ h2]
  show compileFrom (tryImport fs.configMjs fs.configJs)
      (tryImport fs.settingsMjs fs.settingsJs) none =
    compileFrom (tryImport fs.configMjs fs.configJs)
      (tryImport fs.settingsMjs fs.settingsJs) (some [])
  cases hc2 : tryImport fs.configMjs fs.configJs with
  | none =>
    cases hs2 : tryImport fs.settingsMjs fs.settingsJs with
    | none =>
      exfalso
      rcases h with h | h
      · exact h hc2
      · exact h hs2
    | some s => rfl
  | some c => rfl

theorem compile_absent_style_transparent_witness :
    compileThemeJson (setStyles ⟨true, .good [("version", JValue.num 1)], .absent,
        .absent, .absent, .absent, .absent⟩ .absent .absent) =
      compileThemeJson (setStyles ⟨true, .good [("version", JValue.num 1)], .absent,
        .absent, .absent, .absent, .absent⟩ (.good []) .absent) := by
  exact compile_absent_style_transparent
    ⟨true, .good [("version", JValue.num 1)], .absent, .absent, .absent, .absent, .absent⟩
    rfl (Or.inl (by intro hh; exact Option.noConfusion hh))

/-! ## Configuration Composer (createWebpackConfig, current ESM config)

The embedding follows the current version of the webpack config module
(ESM, with the entry replace rule, the resolveLoader prepend rule and the
conditional sass implementation); the superseded CommonJS version that
merged entries instead of replacing them is the behavior the repository
documentation marks as replaced. -/

/-- One element of a use chain: a loader id (the require.resolve result)
and the options object passed to that loader. -/
structure UseEntry where
  loader : String
  options : JObj

/-- One module rule: the source text of its test predicate, an optional
direct loader with rule-level exclude and options, and a use chain. -/
structure Rule where
  test : String
  loader : Option String
  exclude : Option String
  options : JObj
  use : List UseEntry

/-- Plugin instances, distinguished only as far as the source
distinguishes them: instanceof CopyWebpackPlugin, the
RemoveEmptyScriptsPlugin instance the theme config appends, anything
else. -/
inductive Plugin where
  | copy : Plugin
  | removeEmptyScripts : Plugin
  | other (tag : String) : Plugin

def isCopyPlugin : Plugin → Bool
  | .copy => true
  | _ => false

/-- The output directives the theme config writes. -/
structure OutputOpts where
  path : String
  cleanKeep : Option String

/-- A webpack configuration, restricted to the fields the Composer reads
or writes; every other field of the incoming default configuration is
untouched by the merge tables the source instantiates. -/
structure WebpackConfig where
  entry : List (String × String)
  devtool : Option String
  resolveLoaderModules : List String
  moduleRules : List Rule
  stats : JObj
  plugins : List Plugin
  output : OutputOpts

/-- Ambient process state the Composer reads: the working directory, the
directory of the config module, and the results of require.resolve and
require for the modules it loads. -/
structure Env where
  cwd : String
  dir : String
  requireResolve : String → String
  requireModule : String → JValue

/-- Resolution of a relative path against a base directory. -/
def pathResolve (base rel : String) : String :=
  base ++ "/" ++ rel

/-- The options bundle of createWebpackConfig, with the destructuring
defaults of the source. -/
structure WebpackOptions where
  themeEntryPoints : List (String × String) := []
  sassCompiler : Option String := none
  statsConfig : Option JObj := none
  customSassOptions : JObj := []
  themeCleanKeepPattern : Option String := none

/-- The default cleanup-preservation pattern (source text of the regex
literal in the destructuring default). -/
def defaultKeepPattern : String := "^(fonts|images|blocks)\\/"

/-- The sass implementation module: required only when sassCompiler is a
truthy string, otherwise undefined so sass-loader auto-detects. -/
def sassImplementation (env : Env) (o : WebpackOptions) : Option JValue :=
  match o.sassCompiler with
  | some c => if c = "" then none else some (env.requireModule c)
  | none => none

/-- The two-element use chain of the style rule: css-loader and then
sass-loader, whose options carry the implementation key only when a sass
implementation was required. -/
def sassLoaderUse (env : Env) (o : WebpackOptions) : List UseEntry :=
  [ { loader := env.requireResolve "css-loader"
    , options := [("sourceMap", .bool true)] }
  , { loader := env.requireResolve "sass-loader"
    , options := [("sourceMap", .bool true), ("sassOptions", .obj o.customSassOptions)]
        ++ (match sassImplementation env o with
            | some v => [("implementation", v)]
            | none => []) } ]

/-- The babel rule the blocks config adds for the reserved package
namespace. -/
def babelRule (env : Env) : Rule :=
  { test := "\\.(js|mjs)$"
  , loader := some (env.requireResolve "babel-loader")
  , exclude := some "node_modules\\/(?!(@bostonuniversity)\\/).*"
  , options := [("presets",
      .arr [.str (env.requireResolve "@wordpress/babel-preset-default")])]
  , use := [] }

/-- The style rule shared by both overlay configs. -/
def sassRule (env : Env) (o : WebpackOptions) : Rule :=
  { test := "\\.(sc|sa)ss$"
  , loader := none
  , exclude := none
  , options := []
  , use := sassLoaderUse env o }

/-- The resolveLoader module paths both overlay configs set. -/
def loaderModules (env : Env) : List String :=
  ["node_modules", pathResolve env.dir "../node_modules"]

/-- A partial configuration: the fields an overlay object defines. -/
structure ConfigOverlay where
  entry : Option (List (String × String)) := none
  devtool : Option String := none
  resolveLoaderModules : Option (List String) := none
  moduleRules : Option (List Rule) := none
  stats : Option JObj := none
  plugins : Option (List Plugin) := none
  output : Option OutputOpts := none

/-- The blocksConfig overlay object of the source. -/
def blocksConfig (env : Env) (o : WebpackOptions) : ConfigOverlay :=
  { devtool := some "source-map"
  , resolveLoaderModules := some (loaderModules env)
  , moduleRules := some [babelRule env, sassRule env o]
  , stats := o.statsConfig }

/-- The themeConfig overlay object of the source; its plugin list is the
default configuration's plugins with every CopyWebpackPlugin instance
filtered out and one new RemoveEmptyScriptsPlugin appended. -/
def themeConfig (env : Env) (base : WebpackConfig) (o : WebpackOptions) : ConfigOverlay :=
  { entry := some o.themeEntryPoints
  , devtool := some "source-map"
  , resolveLoaderModules := some (loaderModules env)
  , moduleRules := some [sassRule env o]
  , stats := o.statsConfig
  , plugins := some ((base.plugins.filter fun p => !isCopyPlugin p)
      ++ [Plugin.removeEmptyScripts])
  , output := some { path := pathResolve env.cwd "build"
                   , cleanKeep := some (o.themeCleanKeepPattern.getD defaultKeepPattern) } }

def findUseByLoader (ld : String) : List UseEntry → Option UseEntry
  | [] => none
  | u :: us => if u.loader = ld then some u else findUseByLoader ld us

def findRuleByTest (t : String) : List Rule → Option Rule
  | [] => none
  | r :: rs => if r.test = t then some r else findRuleByTest t rs

/-- Merge of two matched use entries: matched on loader, options merged
shallowly with the right side winning. -/
def mergeUseEntry (l r : UseEntry) : UseEntry :=
  { loader := l.loader, options := spread l.options r.options }

/-- The match-then-merge combination of two use chains: entries are
paired by loader, paired options merged, unmatched entries of both sides
kept. -/
def matchMergeUse (a b : List UseEntry) : List UseEntry :=
  (a.map fun u =>
    match findUseByLoader u.loader b with
    | some v => mergeUseEntry u v
    | none => u)
  ++ b.filter fun v => (findUseByLoader v.loader a).isNone

/-- Merge of two matched rules: use chains combined by the nested match
rules, the remaining fields by the default merge (right wins where
defined). -/
def mergeRule (l r : Rule) : Rule :=
  { test := l.test
  , loader := match r.loader with | some x => some x | none => l.loader
  , exclude := match r.exclude with | some x => some x | none => l.exclude
  , options := spread l.options r.options
  , use := matchMergeUse l.use r.use }

/-- The match-then-merge combination of two rule lists: rules are paired
by equal test predicate, paired rules merged, unmatched rules of both
sides kept. -/
def matchMergeRules (a b : List Rule) : List Rule :=
  (a.map fun l =>
    match findRuleByTest l.test b with
    | some r => mergeRule l r
    | none => l)
  ++ b.filter fun r => (findRuleByTest r.test a).isNone

def lookupS : List (String × String) → String → Option String
  | [], _ => none
  | (k2, v) :: rest, k => if k2 = k then some v else lookupS rest k

/-- The JS object spread for string-valued mappings (entry objects). -/
def spreadS (a b : List (String × String)) : List (String × String) :=
  (a.map fun p => (p.1, (lookupS b p.1).getD p.2))
    ++ b.filter fun p => (lookupS a p.1).isNone

/-- The merge table of Derivation 1 (blocks config): devtool and stats
replace, resolveLoader modules prepend, module rules match-then-merge;
fields without a rule fall back to the library default (objects shallow
merge, arrays append, scalars replace). -/
def applyBlocksRules (base : WebpackConfig) (ov : ConfigOverlay) : WebpackConfig :=
  { entry := match ov.entry with
      | some e => spreadS base.entry e
      | none => base.entry
  , devtool := match ov.devtool with | some d => some d | none => base.devtool
  , resolveLoaderModules := (ov.resolveLoaderModules.getD []) ++ base.resolveLoaderModules
  , moduleRules := match ov.moduleRules with
      | some rs => matchMergeRules base.moduleRules rs
      | none => base.moduleRules
  , stats := match ov.stats with | some s => s | none => base.stats
  , plugins := match ov.plugins with | some ps => base.plugins ++ ps | none => base.plugins
  , output := match ov.output with | some out => out | none => base.output }

/-- The merge table of Derivation 2 (theme config): same as Derivation 1
plus entry replace and plugins replace. -/
def applyThemeRules (base : WebpackConfig) (ov : ConfigOverlay) : WebpackConfig :=
  { entry := match ov.entry with | some e => e | none => base.entry
  , devtool := match ov.devtool with | some d => some d | none => base.devtool
  , resolveLoaderModules := (ov.resolveLoaderModules.getD []) ++ base.resolveLoaderModules
  , moduleRules := match ov.moduleRules with
      | some rs => matchMergeRules base.moduleRules rs
      | none => base.moduleRules
  , stats := match ov.stats with | some s => s | none => base.stats
  , plugins := match ov.plugins with | some ps => ps | none => base.plugins
  , output := match ov.output with | some out => out | none => base.output }

/-- The Composer: from the default configuration and the options bundle,
the ordered pair of the blocks configuration and the theme
configuration. -/
def createWebpackConfig (env : Env) (defaultConfig : WebpackConfig)
    (o : WebpackOptions) : WebpackConfig × WebpackConfig :=
  ( applyBlocksRules defaultConfig (blocksConfig env o)
  , applyThemeRules defaultConfig (themeConfig env defaultConfig o) )

/-! ## createConfig (current index entry point) -/

def defaultLoadPaths : List String :=
  [".", "./node_modules", "./node_modules/normalize-scss/sass",
   "./node_modules/mathsass/dist/", "./node_modules/@bostonuniversity"]

def defaultSassOptions : JObj :=
  [ ("loadPaths", .arr (defaultLoadPaths.map .str))
  , ("quietDeps", .bool true)
  , ("silenceDeprecations", .arr
      [.str "legacy-js-api", .str "global-builtin", JValue.str "import",
       .str "slash-div", .str "color-functions", .str "color-4-api"]) ]

def defaultStatsConfig : JObj :=
  [("preset", .str "errors-warnings"), ("colors", .bool true)]

/-- The caller-facing options of createConfig, with the destructuring
defaults of the source. -/
structure CreateConfigOptions where
  themeEntryPoints : List (String × String) := []
  sassCompiler : Option String := none
  statsConfig : Option JObj := none
  loadPaths : List String := []
  sassOptions : JObj := []
  themeCleanKeepPattern : Option String := none

/-- Custom load paths merged after the defaults. -/
def mergedLoadPaths (o : CreateConfigOptions) : List String :=
  defaultLoadPaths ++ o.loadPaths

/-- The merged SASS options object: spread of the defaults, then the
caller's sassOptions, then the explicit loadPaths entry written last in
the object literal. -/
def mergedSassOptions (o : CreateConfigOptions) : JObj :=
  spread (spread defaultSassOptions o.sassOptions)
    [("loadPaths", .arr ((mergedLoadPaths o).map .str))]

/-- The createConfig wrapper of the current index entry point: merges
defaults and forwards to the Composer; sassCompiler is forwarded as-is,
with no default substituted. -/
def createConfig (env : Env) (base : WebpackConfig) (o : CreateConfigOptions) :
    WebpackConfig × WebpackConfig :=
  createWebpackConfig env base
    { themeEntryPoints := o.themeEntryPoints
    , sassCompiler := o.sassCompiler
    , statsConfig := some (o.statsConfig.getD defaultStatsConfig)
    , customSassOptions := mergedSassOptions o
    , themeCleanKeepPattern := o.themeCleanKeepPattern }

/-! ## Composer theorems -/

/-- A concrete environment for witnesses. -/
def envW : Env :=
  { cwd := "/theme", dir := "/toolkit/config"
  , requireResolve := fun s => s
  , requireModule := fun s => .str s }

/-- A concrete default configuration for witnesses. -/
def baseW : WebpackConfig :=
  { entry := [("blocks/foo", "./src/blocks/foo/index.js")]
  , devtool := none
  , resolveLoaderModules := ["node_modules"]
  , moduleRules := []
  , stats := []
  , plugins := [.copy, .other "defined", .copy]
  , output := { path := "/theme/build", cleanKeep := none } }

/-- C6: the entry mapping of the second derived configuration is exactly
the declared entry points of the options; the auto-discovered entries of
the default configuration are replaced, never merged in. -/
theorem theme_entry_replaced (env : Env) (base : WebpackConfig) (o : WebpackOptions) :
    ((createWebpackConfig env base o).2).entry = o.themeEntryPoints := rfl

/-- C7: the plugin list of the second derived configuration is the
default configuration's plugins with every CopyWebpackPlugin removed and
one RemoveEmptyScriptsPlugin appended as the final element. -/
theorem theme_plugins_replaced (env : Env) (base : WebpackConfig) (o : WebpackOptions)
    (_hne : base.plugins ≠ []) :
    ((createWebpackConfig env base o).2).plugins =
        (base.plugins.filter fun p => !isCopyPlugin p) ++ [Plugin.removeEmptyScripts] ∧
      ((createWebpackConfig env base o).2).plugins.getLast? =
        some Plugin.removeEmptyScripts := by
  refine ⟨rfl, ?_⟩
  show ((base.plugins.filter fun p => !isCopyPlugin p)
      ++ [Plugin.removeEmptyScripts]).getLast? = some Plugin.removeEmptyScripts
  simp

theorem theme_plugins_replaced_witness :
    ((createWebpackConfig envW baseW {}).2).plugins =
        (baseW.plugins.filter fun p => !isCopyPlugin p) ++ [Plugin.removeEmptyScripts] ∧
      ((createWebpackConfig envW baseW {}).2).plugins.getLast? =
        some Plugin.removeEmptyScripts :=
  theme_plugins_replaced envW baseW {} (by intro h; exact List.noConfusion h)

/-- C9: the Composer is a pure function of the process environment, the
default configuration and the options: structurally equal inputs give
equal outputs, for the Composer and for the createConfig wrapper alike
(the embedding is a total function with no state component, so the
computation modifies no filesystem or process state). -/
theorem composer_deterministic (env : Env) (b1 b2 : WebpackConfig)
    (o1 o2 : WebpackOptions) (p1 p2 : CreateConfigOptions)
    (hb : b1 = b2) (ho : o1 = o2) (hp : p1 = p2) :
    createWebpackConfig env b1 o1 = createWebpackConfig env b2 o2 ∧
      createConfig env b1 p1 = createConfig env b2 p2 := by
  subst hb; subst ho; subst hp
  exact ⟨rfl, rfl⟩

theorem composer_deterministic_witness :
    createWebpackConfig envW baseW {} = createWebpackConfig envW baseW {} ∧
      createConfig envW baseW {} = createConfig envW baseW {} :=
  composer_deterministic envW baseW baseW {} {} {} {} rfl rfl rfl

theorem findUseByLoader_mem (ld : String) (l : List UseEntry) (v : UseEntry)
    (h : findUseByLoader ld l = some v) : v ∈ l ∧ v.loader = ld := by
  induction l with
  | nil => cases h
  | cons u us ih =>
    rw [findUseByLoader] at h
    by_cases hu : u.loader = ld
    · rw [if_pos hu] at h
      cases h
      exact ⟨List.mem_cons_self _ _, hu⟩
    · rw [if_neg hu] at h
      exact ⟨List.mem_cons_of_mem u (ih h).1, (ih h).2⟩

theorem findRuleByTest_mem (t : String) (l : List Rule) (r : Rule)
    (h : findRuleByTest t l = some r) : r ∈ l ∧ r.test = t := by
  induction l with
  | nil => cases h
  | cons x xs ih =>
    rw [findRuleByTest] at h
    by_cases hx : x.test = t
    · rw [if_pos hx] at h
      cases h
      exact ⟨List.mem_cons_self _ _, hx⟩
    · rw [if_neg hx] at h
      exact ⟨List.mem_cons_of_mem x (ih h).1, (ih h).2⟩

theorem matchMergeUse_no_impl (a b : List UseEntry)
    (ha : ∀ u ∈ a, lookupJ u.options "implementation" = none)
    (hb : ∀ u ∈ b, lookupJ u.options "implementation" = none) :
    ∀ u ∈ matchMergeUse a b, lookupJ u.options "implementation" = none := by
  intro u hu
  rcases List.mem_append.mp hu with hu | hu
  · rcases List.mem_map.mp hu with ⟨x, hx, rfl⟩
    cases hf : findUseByLoader x.loader b with
    | none => exact ha x hx
    | some v =>
      exact lookupJ_spread_none _ _ _ (ha x hx) (hb v (findUseByLoader_mem _ _ _ hf).1)
  · exact hb u (List.mem_filter.mp hu).1

theorem matchMergeRules_no_impl (a b : List Rule)
    (ha : ∀ r ∈ a, ∀ u ∈ r.use, lookupJ u.options "implementation" = none)
    (hb : ∀ r ∈ b, ∀ u ∈ r.use, lookupJ u.options "implementation" = none) :
    ∀ r ∈ matchMergeRules a b, ∀ u ∈ r.use, lookupJ u.options "implementation" = none := by
  intro r hr
  rcases List.mem_append.mp hr with hr | hr
  · rcases List.mem_map.mp hr with ⟨l, hl, rfl⟩
    cases hf : findRuleByTest l.test b with
    | none => exact ha l hl
    | some r2 =>
      exact matchMergeUse_no_impl l.use r2.use (ha l hl)
        (hb r2 (findRuleByTest_mem _ _ _ hf).1)
  · exact hb r (List.mem_filter.mp hr).1

theorem sassLoaderUse_no_impl (env : Env) (o : WebpackOptions)
    (h : sassImplementation env o = none) :
    ∀ u ∈ sassLoaderUse env o, lookupJ u.options "implementation" = none := by
  intro u hu
  rw [sassLoaderUse, h] at hu
  rcases List.mem_cons.mp hu with rfl | hu
  · rfl
  · rcases List.mem_cons.mp hu with rfl | hu
    · rfl
    · cases hu

theorem findSassLoader (env : Env) (o : WebpackOptions) (w : JValue)
    (himpl : sassImplementation env o = some w)
    (hld : env.requireResolve "css-loader" ≠ env.requireResolve "sass-loader") :
    ∃ v, findUseByLoader (env.requireResolve "sass-loader") (sassLoaderUse env o) = some v ∧
      v.loader = env.requireResolve "sass-loader" ∧
      lookupJ v.options "implementation" = some w := by
  refine ⟨{ loader := env.requireResolve "sass-loader"
          , options := [("sourceMap", .bool true), ("sassOptions", .obj o.customSassOptions)]
              ++ [("implementation", w)] }, ?_, rfl, ?_⟩
  · rw [sassLoaderUse, himpl, findUseByLoader, if_neg hld, findUseByLoader, if_pos rfl]
  · rfl

theorem matchMergeUse_exists_right (a b : List UseEntry) (ld : String) (v : UseEntry)
    (w : JValue) (hfb : findUseByLoader ld b = some v)
    (hv : lookupJ v.options "implementation" = some w) :
    ∃ u ∈ matchMergeUse a b, u.loader = ld ∧
      lookupJ u.options "implementation" = some w := by
  cases hfa : findUseByLoader ld a with
  | some x =>
    have hx := findUseByLoader_mem ld a x hfa
    refine ⟨mergeUseEntry x v, ?_, hx.2, ?_⟩
    · exact List.mem_append_left _ (List.mem_map.mpr ⟨x, hx.1, by rw [hx.2, hfb]⟩)
    · exact lookupJ_spread_right _ _ _ _ hv
  | none =>
    have hv2 := findUseByLoader_mem ld b v hfb
    refine ⟨v, ?_, hv2.2, hv⟩
    refine List.mem_append_right _ (List.mem_filter.mpr ⟨hv2.1, ?_⟩)
    rw [hv2.2, hfa]
    rfl

theorem matchMergeRules_exists_right (a b : List Rule) (t : String) (r0 : Rule)
    (ld : String) (w : JValue) (hfb : findRuleByTest t b = some r0)
    (hr0 : ∃ u ∈ r0.use, u.loader = ld ∧ lookupJ u.options "implementation" = some w)
    (hmerge : ∀ l : Rule, ∃ u ∈ (mergeRule l r0).use, u.loader = ld ∧
      lookupJ u.options "implementation" = some w) :
    ∃ r ∈ matchMergeRules a b, ∃ u ∈ r.use, u.loader = ld ∧
      lookupJ u.options "implementation" = some w := by
  cases hfa : findRuleByTest t a with
  | some l =>
    have hl := findRuleByTest_mem t a l hfa
    refine ⟨mergeRule l r0, ?_, hmerge l⟩
    exact List.mem_append_left _ (List.mem_map.mpr ⟨l, hl.1, by rw [hl.2, hfb]⟩)
  | none =>
    have hr := findRuleByTest_mem t b r0 hfb
    refine ⟨r0, ?_, hr0⟩
    refine List.mem_append_right _ (List.mem_filter.mpr ⟨hr.1, ?_⟩)
    rw [hr.2, hfa]
    rfl

/-- C8: when sassCompiler is absent, no style-loader options object in
either derived configuration contains an implementation key (given a
default configuration that does not pin one itself), so sass-loader
auto-detects; when sassCompiler is a non-empty string, both derived
configurations contain a sass-loader use entry whose options carry the
required implementation module. -/
theorem sass_implementation_conditional (env : Env) (base : WebpackConfig)
    (o : WebpackOptions)
    (hbase : ∀ r ∈ base.moduleRules, ∀ u ∈ r.use,
      lookupJ u.options "implementation" = none)
    (hld : env.requireResolve "css-loader" ≠ env.requireResolve "sass-loader") :
    (o.sassCompiler = none →
      (∀ r ∈ ((createWebpackConfig env base o).1).moduleRules, ∀ u ∈ r.use,
          lookupJ u.options "implementation" = none) ∧
      (∀ r ∈ ((createWebpackConfig env base o).2).moduleRules, ∀ u ∈ r.use,
          lookupJ u.options "implementation" = none)) ∧
    (∀ c, o.sassCompiler = some c → c ≠ "" →
      (∃ r ∈ ((createWebpackConfig env base o).1).moduleRules, ∃ u ∈ r.use,
          u.loader = env.requireResolve "sass-loader" ∧
          lookupJ u.options "implementation" = some (env.requireModule c)) ∧
      (∃ r ∈ ((createWebpackConfig env base o).2).moduleRules, ∃ u ∈ r.use,
          u.loader = env.requireResolve "sass-loader" ∧
          lookupJ u.options "implementation" = some (env.requireModule c))) := by
  constructor
  · intro hnone
    have himpl : sassImplementation env o = none := by
      rw [sassImplementation, hnone]
    have hoverlay : ∀ r ∈ [babelRule env, sassRule env o], ∀ u ∈ r.use,
        lookupJ u.options "implementation" = none := by
      intro r hr
      rcases List.mem_cons.mp hr with rfl | hr
      · intro u hu
        simp [babelRule] at hu
      · rcases List.mem_cons.mp hr with rfl | hr
        · exact sassLoaderUse_no_impl env o himpl
        · cases hr
    constructor
    · exact matchMergeRules_no_impl base.moduleRules [babelRule env, sassRule env o]
        hbase hoverlay
    · refine matchMergeRules_no_impl base.moduleRules [sassRule env o] hbase ?_
      intro r hr
      rcases List.mem_cons.mp hr with rfl | hr
      · exact sassLoaderUse_no_impl env o himpl
      · cases hr
  · intro c hc hcne
    have himpl : sassImplementation env o = some (env.requireModule c) := by
      rw [sassImplementation, hc]
      show (if c = "" then none else some (env.requireModule c)) = some (env.requireModule c)
      rw [if_neg hcne]
    obtain ⟨v, hfv, hvld, hvimpl⟩ := findSassLoader env o _ himpl hld
    have hr0 : ∃ u ∈ (sassRule env o).use, u.loader = env.requireResolve "sass-loader" ∧
        lookupJ u.options "implementation" = some (env.requireModule c) :=
      ⟨v, (findUseByLoader_mem _ _ _ hfv).1, hvld, hvimpl⟩
    have hmerge : ∀ l : Rule, ∃ u ∈ (mergeRule l (sassRule env o)).use,
        u.loader = env.requireResolve "sass-loader" ∧
        lookupJ u.options "implementation" = some (env.requireModule c) :=
      fun l => matchMergeUse_exists_right l.use (sassLoaderUse env o) _ v _ hfv hvimpl
    constructor
    · refine matchMergeRules_exists_right base.moduleRules [babelRule env, sassRule env o]
        "\\.(sc|sa)ss$" (sassRule env o) _ _ ?_ hr0 hmerge
      rw [findRuleByTest,
        show (babelRule env).test = "\\.(js|mjs)$" from rfl,
        if_neg (show ¬ (("\\.(js|mjs)$" : String) = "\\.(sc|sa)ss$") from by decide),
        findRuleByTest]
      exact if_pos (show (sassRule env o).test = "\\.(sc|sa)ss$" from rfl)
    · refine matchMergeRules_exists_right base.moduleRules [sassRule env o]
        "\\.(sc|sa)ss$" (sassRule env o) _ _ ?_ hr0 hmerge
      rw [findRuleByTest]
      exact if_pos (show (sassRule env o).test = "\\.(sc|sa)ss$" from rfl)

/-- Concrete options selecting the dart-sass compiler. -/
def optsSassW : WebpackOptions := { sassCompiler := some "sass" }

theorem sass_implementation_conditional_witness :
    (∃ r ∈ ((createWebpackConfig envW baseW optsSassW).1).moduleRules, ∃ u ∈ r.use,
        u.loader = envW.requireResolve "sass-loader" ∧
        lookupJ u.options "implementation" = some (envW.requireModule "sass")) ∧
    (∃ r ∈ ((createWebpackConfig envW baseW optsSassW).2).moduleRules, ∃ u ∈ r.use,
        u.loader = envW.requireResolve "sass-loader" ∧
        lookupJ u.options "implementation" = some (envW.requireModule "sass")) := by
  have h := sass_implementation_conditional envW baseW optsSassW
    (by intro r hr; simp [baseW] at hr) (by decide)
  exact h.2 "sass" rfl (by decide)

/-- C10: whatever loadPaths key the caller puts inside sassOptions, the
merged SASS options hand the Composer a loadPaths list equal to the
default load paths followed by the separate top-level loadPaths option —
the explicit entry written after the spreads always wins. -/
theorem load_paths_priority (o : CreateConfigOptions) :
    lookupJ (mergedSassOptions o) "loadPaths" =
      some (.arr ((defaultLoadPaths ++ o.loadPaths).map .str)) := by
  unfold mergedSassOptions
  exact lookupJ_spread_right _ _ _ _
    (by rw [lookupJ, if_pos rfl, mergedLoadPaths])

end BuToolkit
